import Mathlib

/-!
# NNPPA: registration, login, profile and photo handlers

A shallow embedding of the route handlers of `src/index.js`.

* The `users` collection is a list of documents in insertion order; a document
  is an ordered list of named fields.  The driver-generated `_id` field is left
  out: no handler reads or writes it.
* Request bodies and query strings are maps from field names to an optional
  string (the field is absent, or it carries a string), which is what the
  application's forms post.  A field sent several times is parsed as an array;
  `POST /signup` on such bodies is embedded separately, in `Wide`.
* The driver calls the handlers rely on (`findOne` with a one-field equality
  filter, `insertMany` of one document, `updateOne` with a `$set` update) are
  modelled on documents directly.  A JavaScript `undefined` is written to the
  store as `null`, and an equality filter on `null` matches a document whose
  field is `null` or absent.
* `bcrypt` and the upload middleware are external: the hasher is a parameter and
  the outcome of the upload middleware is an input of the photo handler.
* Store failures (a thrown driver error) are not modelled.
-/

namespace NNPPA

/-! ## Documents and the collection -/

/-- Values a stored field can hold. -/
inductive Val where
  | null
  | str (s : String)
  | bool (b : Bool)
  deriving DecidableEq, Repr

/-- Documents are ordered lists of named fields. -/
abbrev Doc := List (String × Val)

/-- The collection, in insertion order. -/
abbrev Store := List Doc

/-- Request bodies and query strings: a field is absent or carries a string. -/
abbrev Body := String → Option String

/-- Field read `d.k`; `none` stands for `undefined`. -/
def Doc.get (d : Doc) (k : String) : Option Val :=
  match d with
  | [] => none
  | (k1, v1) :: r => if k1 = k then some v1 else Doc.get r k

/-- Field write used by `$set`: replace the value in place, or append the field. -/
def Doc.set (d : Doc) (k : String) (v : Val) : Doc :=
  match d with
  | [] => [(k, v)]
  | (k1, v1) :: r => if k1 = k then (k, v) :: r else (k1, v1) :: Doc.set r k v

/-- Serialisation of a request value for the store: `undefined` becomes `null`. -/
def toBson (x : Option String) : Val :=
  match x with
  | none => Val.null
  | some s => Val.str s

/-- JavaScript string conversion of a stored value, as done by `+` on strings. -/
def valToString (v : Option Val) : String :=
  match v with
  | none => "undefined"
  | some Val.null => "null"
  | some (Val.str s) => s
  | some (Val.bool true) => "true"
  | some (Val.bool false) => "false"

/-- JavaScript string conversion of a request value. -/
def reqToString (x : Option String) : String :=
  match x with
  | none => "undefined"
  | some s => s

/-- One-field equality filter, such as `{ svcNo: x }`: an absent field compares as `null`. -/
def matchesFilter (filter : String × Val) (d : Doc) : Bool :=
  decide ((d.get filter.1).getD Val.null = filter.2)

/-- The driver call `collection.findOne(filter)`: the first matching document. -/
def findOne (collection : Store) (filter : String × Val) : Option Doc :=
  collection.find? (matchesFilter filter)

/-- The driver call `collection.insertMany(docs)`: documents are appended in order. -/
def insertMany (collection : Store) (docs : List Doc) : Store :=
  collection ++ docs

/-- Update operator `$set` applied to one document, field by field. -/
def applySet (d : Doc) (fields : List (String × Val)) : Doc :=
  fields.foldl (fun acc kv => acc.set kv.1 kv.2) d

/-- Result of `updateOne`, reduced to the two counters. -/
structure UpdateResult where
  matchedCount : Nat
  modifiedCount : Nat
  deriving DecidableEq, Repr

/-- The driver call `collection.updateOne(filter, { $set: fields })`: the first matching document
is rewritten; `modifiedCount` is 1 only when the rewrite changed it. -/
def updateOne (collection : Store) (filter : String × Val) (fields : List (String × Val)) :
    Store × UpdateResult :=
  match collection with
  | [] => ([], ⟨0, 0⟩)
  | d :: r =>
    if matchesFilter filter d then
      (applySet d fields :: r, ⟨1, if applySet d fields = d then 0 else 1⟩)
    else
      ((d :: (updateOne r filter fields).1), (updateOne r filter fields).2)

/-! ## Collaborators -/

/-- The password hasher (`bcrypt`).  `hash data salt` is `bcrypt.hash(data, 10)` with the random
salt made explicit; `compare data encrypted` is `bcrypt.compare`.  `none` is a rejected promise. -/
structure Hasher where
  hash : Option String → Nat → Option String
  compare : Option String → Option Val → Option Bool

/-- What the upload middleware hands to the callback of the photo handler. -/
inductive UploadOutcome where
  | multerError (code : String) (message : String)
  | otherError (message : String)
  | noFile
  | file (path : String)
  deriving DecidableEq, Repr

/-- The `filename` callback of the disk storage: service number plus original extension. -/
def filename (svcNo : Option String) (extension : String) : String :=
  reqToString svcNo ++ extension

/-! ## Responses -/

/-- Data handed to a view by `res.render`. -/
inductive Locals where
  | title (t : String)
  | svcNo (v : Option Val)
  | user (userData : Doc)
  deriving DecidableEq, Repr

/-- Responses: `res.status(n).send(text)` (status 200 when unset), `res.render`, `res.redirect`. -/
inductive Response where
  | send (status : Nat) (text : String)
  | render (view : String) (locals : Locals)
  | redirect (url : String)
  deriving DecidableEq, Repr

/-! ## Handlers -/

/-- Handler of `GET /`. -/
def loginPage (collection : Store) : Store × Response :=
  (collection, Response.render "login" (Locals.title "Login Page"))

/-- Handler of `GET /signup`. -/
def signupPage (collection : Store) : Store × Response :=
  (collection, Response.render "signup" (Locals.title "Signup Page"))

/-- Handler of `POST /signup`. -/
def signup (H : Hasher) (salt : Nat) (collection : Store) (body : Body) : Store × Response :=
  match findOne collection ("svcNo", toBson (body "svcNo")) with
  | some _ =>
    (collection,
      Response.send 400 "Personnel with this Service Number already exists. Please try again.")
  | none =>
    match H.hash (body "password") salt with
    | none => (collection, Response.send 500 "An error occurred during signup.")
    | some hashedPassword =>
      (insertMany collection
          [[("svcNo", toBson (body "svcNo")), ("password", Val.str hashedPassword)]],
        Response.render "newProfile" (Locals.svcNo ((body "svcNo").map Val.str)))

/-- Handler of `POST /login`. -/
def login (H : Hasher) (collection : Store) (body : Body) : Store × Response :=
  match findOne collection ("svcNo", toBson (body "svcNo")) with
  | none =>
    (collection, Response.send 200 "Service Number is not registered. Please sign up first.")
  | some check =>
    match H.compare (body "password") (check.get "password") with
    | none => (collection, Response.send 200 "An error occurred during login.")
    | some true =>
      if check.get "profileComplete" = some (Val.bool true) then
        (collection, Response.redirect ("/profile?svcNo=" ++ valToString (check.get "svcNo")))
      else
        (collection, Response.render "newProfile" (Locals.svcNo (check.get "svcNo")))
    | some false => (collection, Response.send 200 "Incorrect password. Please try again.")

/-- The `$set` document built by `POST /create-profile`. -/
def updateData (body : Body) : List (String × Val) :=
  [ ("firstName", toBson (body "firstname")),
    ("middleName", toBson (body "middlename")),
    ("surname", toBson (body "surname")),
    ("svcName", toBson (body "svcname")),
    ("rateRank", toBson (body "raterank")),
    ("dob", toBson (body "dob")),
    ("bloodGroup", toBson (body "bloodgroup")),
    ("maritalStatus", toBson (body "maritalstatus")),
    ("gender", toBson (body "gender")),
    ("email", toBson (body "email")),
    ("phone", toBson (body "phone")),
    ("currentShip", toBson (body "currentship")),
    ("specialization", toBson (body "specialization")),
    ("branch", toBson (body "branch")),
    ("yrCommissioning", toBson (body "yrcommissioning")),
    ("course", toBson (body "course")),
    ("profileComplete", Val.bool true) ]

/-- Handler of `POST /create-profile`. -/
def createProfile (collection : Store) (body : Body) : Store × Response :=
  let result := updateOne collection ("svcNo", toBson (body "svcNo")) (updateData body)
  if result.2.modifiedCount = 1 then
    (result.1, Response.redirect ("/profile?svcNo=" ++ reqToString (body "svcNo")))
  else
    (result.1, Response.send 200 "Profile update failed. User not found or no data changed.")

/-- Handler of `GET /profile`. -/
def profile (collection : Store) (query : Body) : Store × Response :=
  match query "svcNo" with
  | none => (collection, Response.send 200 "Cannot display profile: No service number provided.")
  | some svcNo =>
    if svcNo = "" then
      (collection, Response.send 200 "Cannot display profile: No service number provided.")
    else
      match findOne collection ("svcNo", Val.str svcNo) with
      | none =>
        (collection, Response.send 200 ("Could not find profile for service number: " ++ svcNo))
      | some userData => (collection, Response.render "profile" (Locals.user userData))

/-- Handler of `POST /upload-photo`, run on the outcome of the upload middleware. -/
def uploadPhoto (collection : Store) (body : Body) (upload : UploadOutcome) : Store × Response :=
  match upload with
  | UploadOutcome.multerError code message =>
    if code = "LIMIT_FILE_SIZE" then
      (collection, Response.send 400 "File is too large (Limit: 5MB).")
    else
      (collection, Response.send 400 ("File upload error: " ++ message))
  | UploadOutcome.otherError message =>
    (collection, Response.send 500 ("An unknown error occurred: " ++ message))
  | UploadOutcome.noFile => (collection, Response.send 200 "No file was uploaded.")
  | UploadOutcome.file photoPath =>
    let result := updateOne collection ("svcNo", toBson (body "svcNo")) [("photoPath", Val.str photoPath)]
    if result.2.modifiedCount = 1 then
      (result.1, Response.redirect ("/profile?svcNo=" ++ reqToString (body "svcNo")))
    else
      (result.1, Response.send 200 "Could not update database with photo path.")

/-! ## Requests run one after another -/

/-- One request to the server. -/
inductive Request where
  | loginPage
  | signupPage
  | signup (salt : Nat) (body : Body)
  | login (body : Body)
  | createProfile (body : Body)
  | profile (query : Body)
  | uploadPhoto (body : Body) (upload : UploadOutcome)

/-- Dispatch of a request to its handler. -/
def handle (H : Hasher) (collection : Store) (req : Request) : Store × Response :=
  match req with
  | Request.loginPage => loginPage collection
  | Request.signupPage => signupPage collection
  | Request.signup salt body => signup H salt collection body
  | Request.login body => login H collection body
  | Request.createProfile body => createProfile collection body
  | Request.profile query => profile collection query
  | Request.uploadPhoto body upload => uploadPhoto collection body upload

/-- Stores reachable from the empty collection by running requests in sequence. -/
inductive Reachable (H : Hasher) : Store → Prop where
  | empty : Reachable H []
  | step (collection : Store) (req : Request) :
      Reachable H collection → Reachable H (handle H collection req).1

/-! ## Specification vocabulary -/

/-- The service number a document is filed under: an absent `svcNo` counts as `null`. -/
def svcKey (d : Doc) : Val :=
  (d.get "svcNo").getD Val.null

/-- No two documents of the collection share a service number. -/
def UniqueSvcNo (collection : Store) : Prop :=
  (collection.map svcKey).Nodup

/-- Number of documents filed under service number `v`. -/
def countSvcNo (collection : Store) (v : Val) : Nat :=
  collection.countP (matchesFilter ("svcNo", v))

/-- A request body given by its list of posted fields. -/
def bodyOf (fields : List (String × String)) : Body :=
  fun k => (fields.find? (fun kv => kv.1 = k)).map (fun kv => kv.2)

/-- A query string or body carrying only a service number. -/
def svcNoOnly (s : String) : Body :=
  bodyOf [("svcNo", s)]

/-- A create-profile body for service number `s` with all sixteen profile fields filled in. -/
def sampleProfile (s : String) : Body :=
  bodyOf [("svcNo", s), ("firstname", "Asha"), ("middlename", "K"), ("surname", "Rao"),
    ("svcname", "A K Rao"), ("raterank", "Lt"), ("dob", "1990-01-01"), ("bloodgroup", "O+"),
    ("maritalstatus", "Single"), ("gender", "F"), ("email", "asha@example.org"),
    ("phone", "5550100"), ("currentship", "Shore"), ("specialization", "Nav"),
    ("branch", "Exec"), ("yrcommissioning", "2012"), ("course", "C1")]

/-- A store with the single record a signup with an empty service number leaves behind. -/
def emptySvcNoStore : Store :=
  [[("svcNo", Val.str ""), ("password", Val.str "#abc123")]]

/-- A store with one freshly registered record for service number 12345. -/
def registeredStore : Store :=
  [[("svcNo", Val.str "12345"), ("password", Val.str "#abc123")]]

/-- The collection with the password of the records filed under `s` replaced by `h` and
nothing else changed. -/
def withPassword (collection : Store) (s : String) (h : String) : Store :=
  collection.map (fun d => if svcKey d = Val.str s then d.set "password" (Val.str h) else d)

/-- The record for 12345 once it holds the profile of `sampleProfile`. -/
def completedRecord : Doc :=
  [("svcNo", Val.str "12345"), ("password", Val.str "#abc123"),
    ("firstName", Val.str "Asha"), ("middleName", Val.str "K"), ("surname", Val.str "Rao"),
    ("svcName", Val.str "A K Rao"), ("rateRank", Val.str "Lt"), ("dob", Val.str "1990-01-01"),
    ("bloodGroup", Val.str "O+"), ("maritalStatus", Val.str "Single"), ("gender", Val.str "F"),
    ("email", Val.str "asha@example.org"), ("phone", Val.str "5550100"),
    ("currentShip", Val.str "Shore"), ("specialization", Val.str "Nav"),
    ("branch", Val.str "Exec"), ("yrCommissioning", Val.str "2012"), ("course", Val.str "C1"),
    ("profileComplete", Val.bool true)]

/-- A store whose only record is `completedRecord`. -/
def completedStore : Store :=
  [completedRecord]

/-- A store whose record for 12345 already carries the photo path of a first upload. -/
def photoStore : Store :=
  [[("svcNo", Val.str "12345"), ("password", Val.str "#abc123"),
    ("photoPath", Val.str "uploads/12345.jpg")]]

/-- A toy hasher used to exhibit concrete runs: the digest is a marker followed by the
plaintext, and a missing plaintext is refused. -/
def demoHasher : Hasher where
  hash := fun data _ =>
    match data with
    | none => none
    | some p => some ("#" ++ p)
  compare := fun data encrypted =>
    match data, encrypted with
    | some p, some (Val.str h) => some (decide (h = "#" ++ p))
    | _, _ => none

/-! ## Signup on bodies with repeated fields

`express.urlencoded` parses a field that is sent several times (`svcNo=a&svcNo=b`) as the
array of its strings.  This section embeds `POST /signup` over such bodies: stored values
include arrays of strings, and an equality filter on a string also matches a stored array
that contains the string, as the store does.  JSON bodies with nested objects are left out. -/

namespace Wide

/-- Values of a parsed url-encoded field: sent once it is a string, sent several times it is
the array of its strings. -/
inductive ReqVal where
  | str (s : String)
  | arr (items : List String)
  deriving DecidableEq, Repr

/-- Values a stored field can hold, arrays of strings included. -/
inductive Val where
  | null
  | str (s : String)
  | bool (b : Bool)
  | arr (items : List String)
  deriving DecidableEq, Repr

/-- Documents are ordered lists of named fields. -/
abbrev Doc := List (String × Val)

/-- The collection, in insertion order. -/
abbrev Store := List Doc

/-- Request bodies: a field is absent, a string, or an array of strings. -/
abbrev Body := String → Option ReqVal

/-- Field read `d.k`; `none` stands for `undefined`. -/
def Doc.get (d : Doc) (k : String) : Option Val :=
  match d with
  | [] => none
  | (k1, v1) :: r => if k1 = k then some v1 else Doc.get r k

/-- Serialisation of a request value for the store: `undefined` becomes `null`. -/
def toBson (x : Option ReqVal) : Val :=
  match x with
  | none => Val.null
  | some (ReqVal.str s) => Val.str s
  | some (ReqVal.arr items) => Val.arr items

/-- One-field equality filter, such as `{ svcNo: x }`.  A stored array matches when it equals
the filter value or contains it as an element; any other stored value matches when it equals
the filter value, an absent field comparing as `null`. -/
def matchesFilter (filter : String × Val) (d : Doc) : Bool :=
  match Doc.get d filter.1 with
  | some (Val.arr items) =>
    decide (Val.arr items = filter.2) || items.any (fun x => decide (Val.str x = filter.2))
  | some v => decide (v = filter.2)
  | none => decide (Val.null = filter.2)

/-- The driver call `collection.findOne(filter)`: the first matching document. -/
def findOne (collection : Store) (filter : String × Val) : Option Doc :=
  collection.find? (matchesFilter filter)

/-- The driver call `collection.insertMany(docs)`: documents are appended in order. -/
def insertMany (collection : Store) (docs : List Doc) : Store :=
  collection ++ docs

/-- Responses of the signup handler: `res.status(n).send(text)` and
`res.render(view, { svcNo })`. -/
inductive Response where
  | send (status : Nat) (text : String)
  | render (view : String) (svcNo : Option ReqVal)
  deriving DecidableEq, Repr

/-- Handler of `POST /signup`; `hash data salt` is `bcrypt.hash(data, 10)` with the random salt
made explicit, `none` being a rejected promise. -/
def signup (hash : Option ReqVal → Nat → Option String) (salt : Nat) (collection : Store)
    (body : Body) : Store × Response :=
  match findOne collection ("svcNo", toBson (body "svcNo")) with
  | some _ =>
    (collection,
      Response.send 400 "Personnel with this Service Number already exists. Please try again.")
  | none =>
    match hash (body "password") salt with
    | none => (collection, Response.send 500 "An error occurred during signup.")
    | some hashedPassword =>
      (insertMany collection
          [[("svcNo", toBson (body "svcNo")), ("password", Val.str hashedPassword)]],
        Response.render "newProfile" (body "svcNo"))

/-- Service numbers a document is filed under: the elements of a stored array, otherwise the
stored value, an absent `svcNo` counting as `null`. -/
def svcKeys (d : Doc) : List Val :=
  match Doc.get d "svcNo" with
  | some (Val.arr items) => items.map Val.str
  | some v => [v]
  | none => [Val.null]

/-- No two documents of the collection are filed under a common service number. -/
def UniqueSvcNo (collection : Store) : Prop :=
  collection.Pairwise (fun a b => ∀ v ∈ svcKeys a, v ∉ svcKeys b)

instance (collection : Store) : Decidable (UniqueSvcNo collection) := by
  unfold UniqueSvcNo
  infer_instance

/-- Number of documents a lookup for service number `v` matches. -/
def countSvcNo (collection : Store) (v : Val) : Nat :=
  collection.countP (matchesFilter ("svcNo", v))

/-- A toy hash used to exhibit concrete runs: a marker followed by the plaintext; anything
but a string is refused. -/
def demoHash (data : Option ReqVal) (_salt : Nat) : Option String :=
  match data with
  | some (ReqVal.str p) => some ("#" ++ p)
  | _ => none

/-- A store with one record, registered under service number `a`. -/
def oneRecord : Store :=
  [[("svcNo", Val.str "a"), ("password", Val.str "#pw")]]

/-- The body of `svcNo=a&svcNo=b&password=pw2`. -/
def repeatedSvcNo : Body :=
  fun k =>
    if k = "svcNo" then some (ReqVal.arr ["a", "b"])
    else if k = "password" then some (ReqVal.str "pw2")
    else none

/-- Stored values without arrays, as stored values of this section. -/
def liftVal (v : NNPPA.Val) : Val :=
  match v with
  | NNPPA.Val.null => Val.null
  | NNPPA.Val.str s => Val.str s
  | NNPPA.Val.bool b => Val.bool b

/-- Documents without arrays, as documents of this section. -/
def liftDoc (d : NNPPA.Doc) : Doc :=
  d.map (fun kv => (kv.1, liftVal kv.2))

/-- Bodies whose fields are single strings, as bodies of this section. -/
def liftBody (body : NNPPA.Body) : Body :=
  fun k => (body k).map ReqVal.str

/-- The hasher of the handlers on single strings, refusing arrays. -/
def liftHash (H : Hasher) (data : Option ReqVal) (salt : Nat) : Option String :=
  match data with
  | none => H.hash none salt
  | some (ReqVal.str p) => H.hash (some p) salt
  | some (ReqVal.arr _) => none

end Wide

/-! ## Lemmas on documents -/

theorem Doc.get_set_self (d : Doc) (k : String) (v : Val) : (d.set k v).get k = some v := by
  induction d with
  | nil => simp [Doc.set, Doc.get]
  | cons hd tl ih =>
    obtain ⟨k1, v1⟩ := hd
    by_cases h : k1 = k
    · simp [Doc.set, Doc.get, h]
    · simp [Doc.set, Doc.get, h, ih]

theorem Doc.get_set_other (d : Doc) (k k2 : String) (v : Val) (hk : k ≠ k2) :
    (d.set k v).get k2 = d.get k2 := by
  induction d with
  | nil => simp [Doc.set, Doc.get, hk]
  | cons hd tl ih =>
    obtain ⟨k1, v1⟩ := hd
    by_cases h : k1 = k
    · subst h
      simp [Doc.set, Doc.get, hk]
    · by_cases h2 : k1 = k2
      · subst h2
        simp [Doc.set, Doc.get, h]
      · simp [Doc.set, Doc.get, h, h2, ih]

theorem get_applySet_of_not_mem (fields : List (String × Val)) (d : Doc) (k : String)
    (hk : ∀ kv ∈ fields, kv.1 ≠ k) : (applySet d fields).get k = d.get k := by
  induction fields generalizing d with
  | nil => rfl
  | cons f fs ih =>
    have h1 : (applySet d (f :: fs)) = applySet (d.set f.1 f.2) fs := rfl
    rw [h1, ih _ (fun kv hkv => hk kv (List.mem_cons_of_mem _ hkv))]
    exact Doc.get_set_other d f.1 k f.2 (hk f (List.mem_cons_self _ _))

theorem get_applySet_of_mem (fields : List (String × Val)) (d : Doc) (k : String) (v : Val)
    (hnd : (fields.map Prod.fst).Nodup) (hmem : (k, v) ∈ fields) :
    (applySet d fields).get k = some v := by
  induction fields generalizing d with
  | nil => cases hmem
  | cons f fs ih =>
    have h1 : (applySet d (f :: fs)) = applySet (d.set f.1 f.2) fs := rfl
    rw [List.map_cons, List.nodup_cons] at hnd
    rcases List.mem_cons.mp hmem with h | h
    · subst h
      rw [h1, get_applySet_of_not_mem]
      · exact Doc.get_set_self d k v
      · intro kv hkv heq
        have hin : kv.1 ∈ fs.map Prod.fst := List.mem_map_of_mem Prod.fst hkv
        rw [heq] at hin
        exact hnd.1 hin
    · rw [h1]
      exact ih _ hnd.2 h

theorem matchesFilter_applySet (fields : List (String × Val)) (d : Doc) (filter : String × Val)
    (hk : ∀ kv ∈ fields, kv.1 ≠ filter.1) :
    matchesFilter filter (applySet d fields) = matchesFilter filter d := by
  unfold matchesFilter
  rw [get_applySet_of_not_mem fields d filter.1 hk]

theorem svcKey_applySet (fields : List (String × Val)) (d : Doc)
    (hk : ∀ kv ∈ fields, kv.1 ≠ "svcNo") : svcKey (applySet d fields) = svcKey d := by
  unfold svcKey
  rw [get_applySet_of_not_mem fields d "svcNo" hk]

theorem matchesFilter_svcNo_iff (v : Val) (d : Doc) :
    matchesFilter ("svcNo", v) d = true ↔ svcKey d = v := by
  simp [matchesFilter, svcKey]

theorem get_svcNo_of_matches (s : String) (d : Doc)
    (h : matchesFilter ("svcNo", Val.str s) d = true) : d.get "svcNo" = some (Val.str s) := by
  have h1 : (d.get "svcNo").getD Val.null = Val.str s := by simpa [matchesFilter] using h
  cases hg : d.get "svcNo" with
  | none => rw [hg] at h1; cases h1
  | some w => rw [hg] at h1; exact congrArg some h1

/-! ## Lemmas on the driver calls -/

theorem findOne_matches (collection : Store) (filter : String × Val) (d : Doc)
    (h : findOne collection filter = some d) : matchesFilter filter d = true :=
  List.find?_some h

theorem findOne_mem (collection : Store) (filter : String × Val) (d : Doc)
    (h : findOne collection filter = some d) : d ∈ collection :=
  List.mem_of_find?_eq_some h

theorem updateOne_of_findOne_none (collection : Store) (filter : String × Val)
    (fields : List (String × Val)) (h : findOne collection filter = none) :
    updateOne collection filter fields = (collection, ⟨0, 0⟩) := by
  induction collection with
  | nil => rfl
  | cons d r ih =>
    unfold findOne at h ih
    by_cases hm : matchesFilter filter d = true
    · simp [List.find?, hm] at h
    · simp only [List.find?, hm] at h
      simp only [updateOne, hm]
      rw [ih h]
      rfl

theorem findOne_updateOne (collection : Store) (filter : String × Val)
    (fields : List (String × Val)) (hk : ∀ kv ∈ fields, kv.1 ≠ filter.1) :
    findOne (updateOne collection filter fields).1 filter =
      (findOne collection filter).map (fun d => applySet d fields) := by
  induction collection with
  | nil => rfl
  | cons d r ih =>
    unfold findOne at ih ⊢
    by_cases hm : matchesFilter filter d = true
    · have hm2 := matchesFilter_applySet fields d filter hk
      simp [updateOne, List.find?, hm, hm2]
    · simp only [updateOne, hm, List.find?]
      simpa using ih

theorem updateOne_modified_found (collection : Store) (filter : String × Val)
    (fields : List (String × Val))
    (h : (updateOne collection filter fields).2.modifiedCount = 1) :
    ∃ d, findOne collection filter = some d ∧ applySet d fields ≠ d := by
  cases hf : findOne collection filter with
  | none =>
    rw [updateOne_of_findOne_none collection filter fields hf] at h
    simp at h
  | some d =>
    refine ⟨d, rfl, ?_⟩
    induction collection with
    | nil => simp [findOne] at hf
    | cons e r ih =>
      unfold findOne at hf ih
      by_cases hm : matchesFilter filter e = true
      · simp only [List.find?, hm, Option.some.injEq] at hf
        subst hf
        simp only [updateOne, hm, if_true] at h
        intro heq
        simp [heq] at h
      · simp only [List.find?, hm] at hf
        simp only [updateOne, hm] at h
        exact ih h hf

theorem updateOne_found (collection : Store) (filter : String × Val)
    (fields : List (String × Val)) (d : Doc) (h : findOne collection filter = some d) :
    (updateOne collection filter fields).2 = ⟨1, if applySet d fields = d then 0 else 1⟩ := by
  induction collection with
  | nil => simp [findOne] at h
  | cons e r ih =>
    unfold findOne at h ih
    by_cases hm : matchesFilter filter e = true
    · simp only [List.find?, hm, Option.some.injEq] at h
      subst h
      simp [updateOne, hm]
    · simp only [List.find?, hm] at h
      simp only [updateOne, hm]
      exact ih h

theorem updateOne_map_svcKey (collection : Store) (filter : String × Val)
    (fields : List (String × Val)) (hk : ∀ kv ∈ fields, kv.1 ≠ "svcNo") :
    (updateOne collection filter fields).1.map svcKey = collection.map svcKey := by
  induction collection with
  | nil => rfl
  | cons d r ih =>
    by_cases hm : matchesFilter filter d = true
    · simp [updateOne, hm, svcKey_applySet fields d hk]
    · simp only [updateOne, hm]
      simpa using ih

/-! ## Lemmas on service numbers -/

theorem countSvcNo_of_findOne_none (collection : Store) (v : Val)
    (h : findOne collection ("svcNo", v) = none) : countSvcNo collection v = 0 := by
  unfold countSvcNo
  rw [List.countP_eq_zero]
  intro d hd
  have := List.find?_eq_none.mp h d hd
  simpa using this

theorem countSvcNo_of_unique (collection : Store) (v : Val) (d : Doc)
    (huniq : UniqueSvcNo collection) (hd : d ∈ collection)
    (hm : matchesFilter ("svcNo", v) d = true) : countSvcNo collection v = 1 := by
  induction collection with
  | nil => cases hd
  | cons e r ih =>
    unfold UniqueSvcNo at huniq ih
    rw [List.map_cons, List.nodup_cons] at huniq
    unfold countSvcNo at ih ⊢
    by_cases he : matchesFilter ("svcNo", v) e = true
    · have hz : List.countP (matchesFilter ("svcNo", v)) r = 0 := by
        rw [List.countP_eq_zero]
        intro x hx hxm
        have h1 : svcKey x = v := (matchesFilter_svcNo_iff v x).mp hxm
        have h2 : svcKey e = v := (matchesFilter_svcNo_iff v e).mp he
        exact huniq.1 (h2 ▸ h1 ▸ List.mem_map_of_mem svcKey hx)
      rw [List.countP_cons_of_pos _ _ he, hz]
    · rcases List.mem_cons.mp hd with h | h
      · subst h
        exact absurd hm he
      · rw [List.countP_cons_of_neg _ _ he]
        exact ih huniq.2 h

theorem findOne_insertMany_new (collection : Store) (v : Val) (d : Doc)
    (hnone : findOne collection ("svcNo", v) = none)
    (hm : matchesFilter ("svcNo", v) d = true) :
    findOne (insertMany collection [d]) ("svcNo", v) = some d := by
  unfold findOne insertMany at *
  rw [List.find?_append, hnone]
  simp [List.find?, hm]

theorem matchesFilter_signup_doc (x : Option String) (h : String) :
    matchesFilter ("svcNo", toBson x) [("svcNo", toBson x), ("password", Val.str h)] = true := by
  simp [matchesFilter, Doc.get]

theorem signup_of_found (H : Hasher) (salt : Nat) (collection : Store) (body : Body) (d : Doc)
    (h : findOne collection ("svcNo", toBson (body "svcNo")) = some d) :
    signup H salt collection body = (collection,
      Response.send 400 "Personnel with this Service Number already exists. Please try again.") := by
  unfold signup
  rw [h]

theorem signup_of_new (H : Hasher) (salt : Nat) (collection : Store) (body : Body) (hp : String)
    (h : findOne collection ("svcNo", toBson (body "svcNo")) = none)
    (hh : H.hash (body "password") salt = some hp) :
    signup H salt collection body =
      (insertMany collection [[("svcNo", toBson (body "svcNo")), ("password", Val.str hp)]],
        Response.render "newProfile" (Locals.svcNo ((body "svcNo").map Val.str))) := by
  unfold signup
  rw [h]
  simp only [hh]

theorem signup_of_hash_none (H : Hasher) (salt : Nat) (collection : Store) (body : Body)
    (h : findOne collection ("svcNo", toBson (body "svcNo")) = none)
    (hh : H.hash (body "password") salt = none) :
    signup H salt collection body =
      (collection, Response.send 500 "An error occurred during signup.") := by
  unfold signup
  rw [h]
  simp only [hh]

/-! ## Registration and login -/

/-- C1: in a store with unique service numbers, two signups in a row with the same service
number `s` (hashing succeeding for both passwords) leave exactly one record filed under `s`;
the second signup answers with the status 400 duplicate rejection and leaves the store as the
first signup left it. -/
theorem signup_twice_single_record (H : Hasher) (collection : Store) (s : String)
    (body1 body2 : Body) (salt1 salt2 : Nat)
    (huniq : UniqueSvcNo collection)
    (hs1 : body1 "svcNo" = some s) (hs2 : body2 "svcNo" = some s)
    (hh1 : (H.hash (body1 "password") salt1).isSome = true)
    (_hh2 : (H.hash (body2 "password") salt2).isSome = true) :
    countSvcNo (signup H salt2 (signup H salt1 collection body1).1 body2).1 (Val.str s) = 1 ∧
    (signup H salt2 (signup H salt1 collection body1).1 body2).2 =
      Response.send 400 "Personnel with this Service Number already exists. Please try again." ∧
    (signup H salt2 (signup H salt1 collection body1).1 body2).1 =
      (signup H salt1 collection body1).1 := by
  have hb1 : toBson (body1 "svcNo") = Val.str s := by rw [hs1]; rfl
  have hb2 : toBson (body2 "svcNo") = Val.str s := by rw [hs2]; rfl
  cases hf : findOne collection ("svcNo", Val.str s) with
  | some d =>
    have e1 := signup_of_found H salt1 collection body1 d (by rw [hb1]; exact hf)
    have e2 := signup_of_found H salt2 collection body2 d (by rw [hb2]; exact hf)
    rw [e1]
    simp only
    rw [e2]
    refine ⟨?_, rfl, rfl⟩
    exact countSvcNo_of_unique collection (Val.str s) d huniq (findOne_mem _ _ _ hf)
      (findOne_matches _ _ _ hf)
  | none =>
    obtain ⟨hp, hhp⟩ := Option.isSome_iff_exists.mp hh1
    have e1 := signup_of_new H salt1 collection body1 hp (by rw [hb1]; exact hf) hhp
    have hm := matchesFilter_signup_doc (body1 "svcNo") hp
    rw [hb1] at hm
    have hf2 := findOne_insertMany_new collection (Val.str s) _ hf hm
    rw [hb1] at e1
    have e2 := signup_of_found H salt2 _ body2 _ (by rw [hb2]; exact hf2)
    rw [e1]
    simp only
    rw [e2]
    refine ⟨?_, rfl, rfl⟩
    have h0 := countSvcNo_of_findOne_none collection (Val.str s) hf
    unfold countSvcNo insertMany at *
    rw [List.countP_append, h0]
    simp [List.countP_cons, hm]

theorem signup_twice_single_record_witness :
    countSvcNo (signup demoHasher 2 (signup demoHasher 1 []
        (bodyOf [("svcNo", "12345"), ("password", "abc123")])).1
        (bodyOf [("svcNo", "12345"), ("password", "other")])).1 (Val.str "12345") = 1 ∧
    (signup demoHasher 2 (signup demoHasher 1 []
        (bodyOf [("svcNo", "12345"), ("password", "abc123")])).1
        (bodyOf [("svcNo", "12345"), ("password", "other")])).2 =
      Response.send 400 "Personnel with this Service Number already exists. Please try again." ∧
    (signup demoHasher 2 (signup demoHasher 1 []
        (bodyOf [("svcNo", "12345"), ("password", "abc123")])).1
        (bodyOf [("svcNo", "12345"), ("password", "other")])).1 =
      (signup demoHasher 1 [] (bodyOf [("svcNo", "12345"), ("password", "abc123")])).1 :=
  signup_twice_single_record demoHasher [] "12345"
    (bodyOf [("svcNo", "12345"), ("password", "abc123")])
    (bodyOf [("svcNo", "12345"), ("password", "other")]) 1 2
    (by simp [UniqueSvcNo]) (by decide) (by decide) (by decide) (by decide)

theorem login_of_found (H : Hasher) (collection : Store) (body : Body) (check : Doc)
    (h : findOne collection ("svcNo", toBson (body "svcNo")) = some check) :
    login H collection body =
      match H.compare (body "password") (check.get "password") with
      | none => (collection, Response.send 200 "An error occurred during login.")
      | some true =>
        if check.get "profileComplete" = some (Val.bool true) then
          (collection, Response.redirect ("/profile?svcNo=" ++ valToString (check.get "svcNo")))
        else
          (collection, Response.render "newProfile" (Locals.svcNo (check.get "svcNo")))
      | some false => (collection, Response.send 200 "Incorrect password. Please try again.") := by
  unfold login
  rw [h]

theorem login_store (H : Hasher) (collection : Store) (body : Body) :
    (login H collection body).1 = collection := by
  unfold login
  cases findOne collection ("svcNo", toBson (body "svcNo")) with
  | none => rfl
  | some check =>
    simp only
    cases H.compare (body "password") (check.get "password") with
    | none => rfl
    | some b =>
      cases b with
      | false => rfl
      | true =>
        simp only
        split <;> rfl

/-- C2: when the hasher verifies what it hashed, a signup with `(s, p)` that succeeds (it
renders the profile-creation view, which it only does when the store held no record for `s`)
is followed by a login with the same `(s, p)` that succeeds: the answer is neither the
not-registered nor the incorrect-password message, it is the profile-creation view carrying
`s`, the new record having no `profileComplete` flag. -/
theorem signup_then_login (H : Hasher) (collection : Store) (s p : String)
    (body loginBody : Body) (salt : Nat)
    (hs : body "svcNo" = some s) (hp : body "password" = some p)
    (hls : loginBody "svcNo" = some s) (hlp : loginBody "password" = some p)
    (hcmp : ∀ n h, H.hash (some p) n = some h →
      H.compare (some p) (some (Val.str h)) = some true)
    (hok : (signup H salt collection body).2 =
      Response.render "newProfile" (Locals.svcNo (some (Val.str s)))) :
    (login H (signup H salt collection body).1 loginBody).2 =
        Response.render "newProfile" (Locals.svcNo (some (Val.str s))) ∧
    (login H (signup H salt collection body).1 loginBody).2 ≠
        Response.send 200 "Service Number is not registered. Please sign up first." ∧
    (login H (signup H salt collection body).1 loginBody).2 ≠
        Response.send 200 "Incorrect password. Please try again." := by
  have hb : toBson (body "svcNo") = Val.str s := by rw [hs]; rfl
  have hlb : toBson (loginBody "svcNo") = Val.str s := by rw [hls]; rfl
  have key : (login H (signup H salt collection body).1 loginBody).2 =
      Response.render "newProfile" (Locals.svcNo (some (Val.str s))) := by
    cases hf : findOne collection ("svcNo", Val.str s) with
    | some d =>
      rw [signup_of_found H salt collection body d (by rw [hb]; exact hf)] at hok
      cases hok
    | none =>
      cases hh : H.hash (body "password") salt with
      | none =>
        rw [signup_of_hash_none H salt collection body (by rw [hb]; exact hf) hh] at hok
        cases hok
      | some hp1 =>
        have e1 := signup_of_new H salt collection body hp1 (by rw [hb]; exact hf) hh
        have hm := matchesFilter_signup_doc (body "svcNo") hp1
        rw [hb] at hm e1
        have hf2 := findOne_insertMany_new collection (Val.str s) _ hf hm
        rw [e1]
        simp only
        rw [login_of_found H _ loginBody _ (by rw [hlb]; exact hf2)]
        rw [hp] at hh
        have hc := hcmp salt hp1 hh
        have hg : Doc.get [("svcNo", Val.str s), ("password", Val.str hp1)] "password" =
            some (Val.str hp1) := by simp [Doc.get]
        have hg2 : Doc.get [("svcNo", Val.str s), ("password", Val.str hp1)] "profileComplete" =
            none := by simp [Doc.get]
        have hg3 : Doc.get [("svcNo", Val.str s), ("password", Val.str hp1)] "svcNo" =
            some (Val.str s) := by simp [Doc.get]
        rw [hlp, hg, hc, hg2, hg3]
        simp
  rw [key]
  exact ⟨rfl, by simp, by simp⟩

theorem signup_then_login_witness :
    (login demoHasher (signup demoHasher 7 []
        (bodyOf [("svcNo", "12345"), ("password", "abc123")])).1
        (bodyOf [("svcNo", "12345"), ("password", "abc123")])).2 =
        Response.render "newProfile" (Locals.svcNo (some (Val.str "12345"))) ∧
    (login demoHasher (signup demoHasher 7 []
        (bodyOf [("svcNo", "12345"), ("password", "abc123")])).1
        (bodyOf [("svcNo", "12345"), ("password", "abc123")])).2 ≠
        Response.send 200 "Service Number is not registered. Please sign up first." ∧
    (login demoHasher (signup demoHasher 7 []
        (bodyOf [("svcNo", "12345"), ("password", "abc123")])).1
        (bodyOf [("svcNo", "12345"), ("password", "abc123")])).2 ≠
        Response.send 200 "Incorrect password. Please try again." :=
  signup_then_login demoHasher [] "12345" "abc123"
    (bodyOf [("svcNo", "12345"), ("password", "abc123")])
    (bodyOf [("svcNo", "12345"), ("password", "abc123")]) 7
    (by decide) (by decide) (by decide) (by decide)
    (by intro n h hh; simp [demoHasher] at hh ⊢; exact hh.symm)
    (by decide)

/-- C3 (as stated, refuted): a record for 12345 exists and the request carries no password, so
the hasher refuses the comparison; the login handler answers "An error occurred during
login.", which is none of the four outcomes of the case split. -/
theorem login_missing_password_error :
    findOne registeredStore ("svcNo", Val.str "12345") =
      some [("svcNo", Val.str "12345"), ("password", Val.str "#abc123")] ∧
    demoHasher.compare (svcNoOnly "12345" "password") (some (Val.str "#abc123")) = none ∧
    (login demoHasher registeredStore (svcNoOnly "12345")).2 =
      Response.send 200 "An error occurred during login." ∧
    (login demoHasher registeredStore (svcNoOnly "12345")).2 ≠
      Response.send 200 "Service Number is not registered. Please sign up first." ∧
    (login demoHasher registeredStore (svcNoOnly "12345")).2 ≠
      Response.send 200 "Incorrect password. Please try again." ∧
    (login demoHasher registeredStore (svcNoOnly "12345")).2 ≠
      Response.redirect "/profile?svcNo=12345" ∧
    (login demoHasher registeredStore (svcNoOnly "12345")).2 ≠
      Response.render "newProfile" (Locals.svcNo (some (Val.str "12345"))) := by
  refine ⟨by decide, by decide, by decide, by decide, by decide, by decide, by decide⟩

/-- C3 (amended): the login handler never changes the store, and for a request carrying service
number `s` its answer is exactly this five-way split.  No record for `s`: the not-registered
message.  A record exists and the password comparison fails with an error (as it does when the
request has no password): the message "An error occurred during login.".  The comparison
reports no match: the incorrect-password message.  The comparison reports a match and
`profileComplete` is true: a redirect to `/profile?svcNo=s`.  The comparison reports a match
and `profileComplete` is false or absent: the profile-creation view carrying `s`. -/
theorem login_five_way_split (H : Hasher) (collection : Store) (body : Body) (s : String)
    (hs : body "svcNo" = some s) :
    (login H collection body).1 = collection ∧
    (findOne collection ("svcNo", Val.str s) = none →
      (login H collection body).2 =
        Response.send 200 "Service Number is not registered. Please sign up first.") ∧
    (∀ record, findOne collection ("svcNo", Val.str s) = some record →
      (H.compare (body "password") (record.get "password") = none →
        (login H collection body).2 = Response.send 200 "An error occurred during login.") ∧
      (H.compare (body "password") (record.get "password") = some false →
        (login H collection body).2 =
          Response.send 200 "Incorrect password. Please try again.") ∧
      (H.compare (body "password") (record.get "password") = some true →
        record.get "profileComplete" = some (Val.bool true) →
        (login H collection body).2 = Response.redirect ("/profile?svcNo=" ++ s)) ∧
      (H.compare (body "password") (record.get "password") = some true →
        record.get "profileComplete" ≠ some (Val.bool true) →
        (login H collection body).2 =
          Response.render "newProfile" (Locals.svcNo (some (Val.str s))))) ∧
    ((login H collection body).2 =
        Response.send 200 "Service Number is not registered. Please sign up first." ∨
      (login H collection body).2 = Response.send 200 "An error occurred during login." ∨
      (login H collection body).2 = Response.send 200 "Incorrect password. Please try again." ∨
      (login H collection body).2 = Response.redirect ("/profile?svcNo=" ++ s) ∨
      (login H collection body).2 =
        Response.render "newProfile" (Locals.svcNo (some (Val.str s)))) := by
  have hb : toBson (body "svcNo") = Val.str s := by rw [hs]; rfl
  have hnone : findOne collection ("svcNo", Val.str s) = none →
      (login H collection body).2 =
        Response.send 200 "Service Number is not registered. Please sign up first." := by
    intro h
    unfold login
    rw [hb, h]
  have hsome : ∀ record, findOne collection ("svcNo", Val.str s) = some record →
      (H.compare (body "password") (record.get "password") = none →
        (login H collection body).2 = Response.send 200 "An error occurred during login.") ∧
      (H.compare (body "password") (record.get "password") = some false →
        (login H collection body).2 =
          Response.send 200 "Incorrect password. Please try again.") ∧
      (H.compare (body "password") (record.get "password") = some true →
        record.get "profileComplete" = some (Val.bool true) →
        (login H collection body).2 = Response.redirect ("/profile?svcNo=" ++ s)) ∧
      (H.compare (body "password") (record.get "password") = some true →
        record.get "profileComplete" ≠ some (Val.bool true) →
        (login H collection body).2 =
          Response.render "newProfile" (Locals.svcNo (some (Val.str s)))) := by
    intro record hf
    have hg := get_svcNo_of_matches s record (findOne_matches _ _ _ hf)
    have hl := login_of_found H collection body record (by rw [hb]; exact hf)
    refine ⟨?_, ?_, ?_, ?_⟩
    · intro hc
      rw [hl, hc]
    · intro hc
      rw [hl, hc]
    · intro hc hpc
      rw [hl, hc]
      simp [hpc, hg, valToString]
    · intro hc hpc
      rw [hl, hc]
      simp [hpc, hg]
  refine ⟨login_store H collection body, hnone, hsome, ?_⟩
  cases hf : findOne collection ("svcNo", Val.str s) with
  | none => exact Or.inl (hnone hf)
  | some record =>
    obtain ⟨h1, h2, h3, h4⟩ := hsome record hf
    cases hc : H.compare (body "password") (record.get "password") with
    | none => exact Or.inr (Or.inl (h1 hc))
    | some b =>
      cases b with
      | false => exact Or.inr (Or.inr (Or.inl (h2 hc)))
      | true =>
        by_cases hpc : record.get "profileComplete" = some (Val.bool true)
        · exact Or.inr (Or.inr (Or.inr (Or.inl (h3 hc hpc))))
        · exact Or.inr (Or.inr (Or.inr (Or.inr (h4 hc hpc))))

theorem login_five_way_split_witness :
    (login demoHasher registeredStore (svcNoOnly "12345")).2 =
        Response.send 200 "An error occurred during login." ∧
    (login demoHasher [[("svcNo", Val.str "12345"), ("password", Val.str "#abc123"),
        ("profileComplete", Val.bool true)]]
      (bodyOf [("svcNo", "12345"), ("password", "abc123")])).2 =
      Response.redirect "/profile?svcNo=12345" :=
  ⟨((login_five_way_split demoHasher registeredStore (svcNoOnly "12345") "12345"
      (by decide)).2.2.1
      [("svcNo", Val.str "12345"), ("password", Val.str "#abc123")] (by decide)).1 (by decide),
   ((login_five_way_split demoHasher [[("svcNo", Val.str "12345"),
        ("password", Val.str "#abc123"), ("profileComplete", Val.bool true)]]
      (bodyOf [("svcNo", "12345"), ("password", "abc123")]) "12345" (by decide)).2.2.1
      [("svcNo", Val.str "12345"), ("password", Val.str "#abc123"),
        ("profileComplete", Val.bool true)] (by decide)).2.2.1 (by decide) (by decide)⟩

/-! ## Profile creation and retrieval -/

theorem updateData_keys (body : Body) :
    (updateData body).map Prod.fst =
      ["firstName", "middleName", "surname", "svcName", "rateRank", "dob", "bloodGroup",
        "maritalStatus", "gender", "email", "phone", "currentShip", "specialization", "branch",
        "yrCommissioning", "course", "profileComplete"] := rfl

theorem updateData_keys_nodup (body : Body) : ((updateData body).map Prod.fst).Nodup := by
  rw [updateData_keys]
  decide

theorem updateData_keys_ne_svcNo (body : Body) : ∀ kv ∈ updateData body, kv.1 ≠ "svcNo" := by
  intro kv hkv
  have h1 : kv.1 ∈ (updateData body).map Prod.fst := List.mem_map_of_mem Prod.fst hkv
  rw [updateData_keys] at h1
  intro h2
  rw [h2] at h1
  revert h1
  decide

theorem createProfile_store (collection : Store) (body : Body) :
    (createProfile collection body).1 =
      (updateOne collection ("svcNo", toBson (body "svcNo")) (updateData body)).1 := by
  unfold createProfile
  simp only
  split <;> rfl

theorem createProfile_answer_eq (collection : Store) (body : Body) :
    (createProfile collection body).2 =
      if (updateOne collection ("svcNo", toBson (body "svcNo")) (updateData body)).2.modifiedCount
          = 1 then
        Response.redirect ("/profile?svcNo=" ++ reqToString (body "svcNo"))
      else Response.send 200 "Profile update failed. User not found or no data changed." := by
  unfold createProfile
  simp only
  split <;> rfl

theorem profile_of_found (collection : Store) (query : Body) (s : String) (d : Doc)
    (hq : query "svcNo" = some s) (hne : s ≠ "")
    (hf : findOne collection ("svcNo", Val.str s) = some d) :
    profile collection query = (collection, Response.render "profile" (Locals.user d)) := by
  unfold profile
  rw [hq]
  simp only [hne, if_false]
  rw [hf]

/-- C4 (as stated, refuted): with the empty string as service number the create-profile
handler reports success on the record filed under it, yet the profile retrieval handler for
that service number returns no record: it answers that no service number was provided. -/
theorem createProfile_empty_svcNo_not_retrieved :
    findOne emptySvcNoStore ("svcNo", Val.str "") =
      some [("svcNo", Val.str ""), ("password", Val.str "#abc123")] ∧
    (createProfile emptySvcNoStore (sampleProfile "")).2 = Response.redirect "/profile?svcNo=" ∧
    (profile (createProfile emptySvcNoStore (sampleProfile "")).1 (svcNoOnly "")).2 =
      Response.send 200 "Cannot display profile: No service number provided." := by
  refine ⟨by decide, by decide, by decide⟩

/-- C4 (amended): for a non-empty service number `s`, when the create-profile handler reports
success (redirect to the profile display), the profile retrieval handler for `s` returns a
record in which each of the sixteen profile fields (`firstName`, `middleName`, `surname`,
`svcName`, `rateRank`, `dob`, `bloodGroup`, `maritalStatus`, `gender`, `email`, `phone`,
`currentShip`, `specialization`, `branch`, `yrCommissioning`, `course`) holds the value
submitted for it and `profileComplete` is true. -/
theorem createProfile_then_profile (collection : Store) (body query : Body) (s : String)
    (hs : body "svcNo" = some s) (hq : query "svcNo" = some s) (hne : s ≠ "")
    (hok : (createProfile collection body).2 = Response.redirect ("/profile?svcNo=" ++ s)) :
    ∃ userData,
      (profile (createProfile collection body).1 query).2 =
        Response.render "profile" (Locals.user userData) ∧
      userData.get "firstName" = some (toBson (body "firstname")) ∧
      userData.get "middleName" = some (toBson (body "middlename")) ∧
      userData.get "surname" = some (toBson (body "surname")) ∧
      userData.get "svcName" = some (toBson (body "svcname")) ∧
      userData.get "rateRank" = some (toBson (body "raterank")) ∧
      userData.get "dob" = some (toBson (body "dob")) ∧
      userData.get "bloodGroup" = some (toBson (body "bloodgroup")) ∧
      userData.get "maritalStatus" = some (toBson (body "maritalstatus")) ∧
      userData.get "gender" = some (toBson (body "gender")) ∧
      userData.get "email" = some (toBson (body "email")) ∧
      userData.get "phone" = some (toBson (body "phone")) ∧
      userData.get "currentShip" = some (toBson (body "currentship")) ∧
      userData.get "specialization" = some (toBson (body "specialization")) ∧
      userData.get "branch" = some (toBson (body "branch")) ∧
      userData.get "yrCommissioning" = some (toBson (body "yrcommissioning")) ∧
      userData.get "course" = some (toBson (body "course")) ∧
      userData.get "profileComplete" = some (Val.bool true) := by
  have hb : toBson (body "svcNo") = Val.str s := by rw [hs]; rfl
  have hmod : (updateOne collection ("svcNo", toBson (body "svcNo"))
      (updateData body)).2.modifiedCount = 1 := by
    by_contra hcon
    rw [createProfile_answer_eq, if_neg hcon] at hok
    cases hok
  obtain ⟨d, hd, _⟩ := updateOne_modified_found _ _ _ hmod
  have hfind := findOne_updateOne collection ("svcNo", toBson (body "svcNo")) (updateData body)
    (updateData_keys_ne_svcNo body)
  rw [hd, ← createProfile_store, hb] at hfind
  have hget : ∀ k v, (k, v) ∈ updateData body →
      (applySet d (updateData body)).get k = some v :=
    fun k v hkv => get_applySet_of_mem (updateData body) d k v (updateData_keys_nodup body) hkv
  refine ⟨applySet d (updateData body), ?_, ?_, ?_, ?_, ?_, ?_, ?_, ?_, ?_, ?_, ?_, ?_, ?_, ?_, ?_, ?_, ?_, ?_⟩
  · rw [profile_of_found _ query s _ hq hne hfind]
  all_goals exact hget _ _ (by simp [updateData])

theorem createProfile_then_profile_witness :
    ∃ userData,
      (profile (createProfile registeredStore (sampleProfile "12345")).1 (svcNoOnly "12345")).2 =
        Response.render "profile" (Locals.user userData) ∧
      userData.get "firstName" = some (Val.str "Asha") ∧
      userData.get "middleName" = some (Val.str "K") ∧
      userData.get "surname" = some (Val.str "Rao") ∧
      userData.get "svcName" = some (Val.str "A K Rao") ∧
      userData.get "rateRank" = some (Val.str "Lt") ∧
      userData.get "dob" = some (Val.str "1990-01-01") ∧
      userData.get "bloodGroup" = some (Val.str "O+") ∧
      userData.get "maritalStatus" = some (Val.str "Single") ∧
      userData.get "gender" = some (Val.str "F") ∧
      userData.get "email" = some (Val.str "asha@example.org") ∧
      userData.get "phone" = some (Val.str "5550100") ∧
      userData.get "currentShip" = some (Val.str "Shore") ∧
      userData.get "specialization" = some (Val.str "Nav") ∧
      userData.get "branch" = some (Val.str "Exec") ∧
      userData.get "yrCommissioning" = some (Val.str "2012") ∧
      userData.get "course" = some (Val.str "C1") ∧
      userData.get "profileComplete" = some (Val.bool true) :=
  createProfile_then_profile registeredStore (sampleProfile "12345") (svcNoOnly "12345") "12345"
    (by decide) (by decide) (by decide) (by decide)

/-- C5 (as stated, refuted): for the same profile field set, the create-profile handler gives
one and the same response when no record matches the service number (empty store) and when a
record matches whose stored fields are identical to the submitted ones. -/
theorem createProfile_same_response_unmatched_unmodified :
    findOne [] ("svcNo", Val.str "12345") = none ∧
    findOne completedStore ("svcNo", Val.str "12345") = some completedRecord ∧
    applySet completedRecord (updateData (sampleProfile "12345")) = completedRecord ∧
    (createProfile [] (sampleProfile "12345")).2 =
      (createProfile completedStore (sampleProfile "12345")).2 := by
  refine ⟨rfl, by decide, by decide, by decide⟩

/-- C5 (amended): the create-profile handler answers by the modified count alone.  When no
record matches the service number and when the matching record is left identical by the
update it gives the same message, "Profile update failed. User not found or no data changed.";
when the matching record is changed it redirects to the profile display. -/
theorem createProfile_response (collection : Store) (body : Body) :
    (findOne collection ("svcNo", toBson (body "svcNo")) = none →
      (createProfile collection body).2 =
        Response.send 200 "Profile update failed. User not found or no data changed.") ∧
    (∀ d, findOne collection ("svcNo", toBson (body "svcNo")) = some d →
      applySet d (updateData body) = d →
      (createProfile collection body).2 =
        Response.send 200 "Profile update failed. User not found or no data changed.") ∧
    (∀ d, findOne collection ("svcNo", toBson (body "svcNo")) = some d →
      applySet d (updateData body) ≠ d →
      (createProfile collection body).2 =
        Response.redirect ("/profile?svcNo=" ++ reqToString (body "svcNo"))) := by
  refine ⟨?_, ?_, ?_⟩
  · intro hnone
    rw [createProfile_answer_eq, updateOne_of_findOne_none _ _ _ hnone]
    simp
  · intro d hd hsame
    rw [createProfile_answer_eq, updateOne_found _ _ _ d hd]
    simp [hsame]
  · intro d hd hdiff
    rw [createProfile_answer_eq, updateOne_found _ _ _ d hd]
    simp [hdiff]

theorem createProfile_response_witness :
    (createProfile [] (sampleProfile "12345")).2 =
      Response.send 200 "Profile update failed. User not found or no data changed." ∧
    (createProfile registeredStore (sampleProfile "12345")).2 =
      Response.redirect ("/profile?svcNo=" ++ reqToString (sampleProfile "12345" "svcNo")) :=
  ⟨(createProfile_response [] (sampleProfile "12345")).1 rfl,
   (createProfile_response registeredStore (sampleProfile "12345")).2.2
     [("svcNo", Val.str "12345"), ("password", Val.str "#abc123")] (by decide) (by decide)⟩

/-- C6 (as stated, refuted): two stores that differ only in the stored password of the record
for 12345 give different payloads to the profile view. -/
theorem profile_payload_depends_on_password :
    withPassword registeredStore "12345" "#other" =
      [[("svcNo", Val.str "12345"), ("password", Val.str "#other")]] ∧
    (profile (withPassword registeredStore "12345" "#other") (svcNoOnly "12345")).2 =
      Response.render "profile"
        (Locals.user [("svcNo", Val.str "12345"), ("password", Val.str "#other")]) ∧
    (profile (withPassword registeredStore "12345" "#other") (svcNoOnly "12345")).2 ≠
      (profile registeredStore (svcNoOnly "12345")).2 := by
  refine ⟨by decide, by decide, by decide⟩

/-- C6 (amended): the profile retrieval handler hands the stored record to the display layer
as it is, the password field included: for a non-empty service number with a record, the
payload is that record, and so its `password` field is the stored hash. -/
theorem profile_payload_is_stored_record (collection : Store) (query : Body) (s : String)
    (d : Doc) (hq : query "svcNo" = some s) (hne : s ≠ "")
    (hf : findOne collection ("svcNo", Val.str s) = some d) :
    (profile collection query).2 = Response.render "profile" (Locals.user d) ∧
    ∀ payload, (profile collection query).2 = Response.render "profile" (Locals.user payload) →
      payload.get "password" = d.get "password" := by
  rw [profile_of_found collection query s d hq hne hf]
  refine ⟨rfl, ?_⟩
  intro payload h
  simp only [Response.render.injEq, Locals.user.injEq, true_and] at h
  rw [h]

theorem profile_payload_is_stored_record_witness :
    (profile registeredStore (svcNoOnly "12345")).2 =
      Response.render "profile"
        (Locals.user [("svcNo", Val.str "12345"), ("password", Val.str "#abc123")]) ∧
    ∀ payload, (profile registeredStore (svcNoOnly "12345")).2 =
        Response.render "profile" (Locals.user payload) →
      payload.get "password" =
        Doc.get [("svcNo", Val.str "12345"), ("password", Val.str "#abc123")] "password" :=
  profile_payload_is_stored_record registeredStore (svcNoOnly "12345") "12345"
    [("svcNo", Val.str "12345"), ("password", Val.str "#abc123")] (by decide) (by decide)
    (by decide)

/-! ## Presence of the signup inputs -/

/-- C7 (the code at the failing input): a signup whose service number is the empty string is
not rejected: on the empty store, once the password is hashed, a record with the empty
service number is inserted and the profile-creation view is rendered. -/
theorem signup_accepts_empty_svcNo (H : Hasher) (salt : Nat) (h : String)
    (hh : H.hash (some "abc123") salt = some h) :
    signup H salt [] (bodyOf [("svcNo", ""), ("password", "abc123")]) =
      ([[("svcNo", Val.str ""), ("password", Val.str h)]],
        Response.render "newProfile" (Locals.svcNo (some (Val.str "")))) := by
  have hp : bodyOf [("svcNo", ""), ("password", "abc123")] "password" = some "abc123" := by
    decide
  rw [signup_of_new H salt [] _ h rfl (by rw [hp]; exact hh)]
  rfl

theorem signup_accepts_empty_svcNo_witness :
    signup demoHasher 1 [] (bodyOf [("svcNo", ""), ("password", "abc123")]) =
      ([[("svcNo", Val.str ""), ("password", Val.str "#abc123")]],
        Response.render "newProfile" (Locals.svcNo (some (Val.str "")))) :=
  signup_accepts_empty_svcNo demoHasher 1 "#abc123" (by decide)

/-! ## Uniqueness of service numbers -/

theorem signup_unique (H : Hasher) (salt : Nat) (collection : Store) (body : Body)
    (huniq : UniqueSvcNo collection) : UniqueSvcNo (signup H salt collection body).1 := by
  cases hf : findOne collection ("svcNo", toBson (body "svcNo")) with
  | some d => rw [signup_of_found H salt collection body d hf]; exact huniq
  | none =>
    cases hh : H.hash (body "password") salt with
    | none => rw [signup_of_hash_none H salt collection body hf hh]; exact huniq
    | some hp =>
      rw [signup_of_new H salt collection body hp hf hh]
      unfold UniqueSvcNo insertMany at *
      rw [List.map_append, List.nodup_append]
      refine ⟨huniq, by simp, ?_⟩
      intro a ha hb
      have hk : svcKey [("svcNo", toBson (body "svcNo")), ("password", Val.str hp)] =
          toBson (body "svcNo") := by simp [svcKey, Doc.get]
      simp only [List.map_cons, List.map_nil, List.mem_singleton] at hb
      rw [hk] at hb
      obtain ⟨e, he, hke⟩ := List.mem_map.mp ha
      have hno := List.find?_eq_none.mp hf e he
      exact hno ((matchesFilter_svcNo_iff _ e).mpr (hke.trans hb))

theorem profile_store (collection : Store) (query : Body) :
    (profile collection query).1 = collection := by
  unfold profile
  cases query "svcNo" with
  | none => rfl
  | some svcNo =>
    simp only
    split
    · rfl
    · cases findOne collection ("svcNo", Val.str svcNo) <;> rfl

theorem uploadPhoto_store_file (collection : Store) (body : Body) (p : String) :
    (uploadPhoto collection body (UploadOutcome.file p)).1 =
      (updateOne collection ("svcNo", toBson (body "svcNo")) [("photoPath", Val.str p)]).1 := by
  unfold uploadPhoto
  simp only
  split <;> rfl

theorem uploadPhoto_store_rejected (collection : Store) (body : Body) (upload : UploadOutcome)
    (h : ∀ p, upload ≠ UploadOutcome.file p) : (uploadPhoto collection body upload).1 = collection := by
  cases upload with
  | multerError code message =>
    unfold uploadPhoto
    simp only
    split <;> rfl
  | otherError message => rfl
  | noFile => rfl
  | file p => exact absurd rfl (h p)

theorem uploadPhoto_unique (collection : Store) (body : Body) (upload : UploadOutcome)
    (huniq : UniqueSvcNo collection) : UniqueSvcNo (uploadPhoto collection body upload).1 := by
  cases upload with
  | file p =>
    unfold UniqueSvcNo at *
    rw [uploadPhoto_store_file, updateOne_map_svcKey _ _ _ (by simp)]
    exact huniq
  | multerError code message =>
    rw [uploadPhoto_store_rejected _ _ _ (by simp)]; exact huniq
  | otherError message => exact huniq
  | noFile => exact huniq

theorem handle_unique (H : Hasher) (collection : Store) (req : Request)
    (huniq : UniqueSvcNo collection) : UniqueSvcNo (handle H collection req).1 := by
  cases req with
  | loginPage => exact huniq
  | signupPage => exact huniq
  | signup salt body => exact signup_unique H salt collection body huniq
  | login body =>
    show UniqueSvcNo (login H collection body).1
    rw [login_store]; exact huniq
  | createProfile body =>
    show UniqueSvcNo (createProfile collection body).1
    unfold UniqueSvcNo at *
    rw [createProfile_store, updateOne_map_svcKey _ _ _ (updateData_keys_ne_svcNo body)]
    exact huniq
  | profile query =>
    show UniqueSvcNo (profile collection query).1
    rw [profile_store]; exact huniq
  | uploadPhoto body upload => exact uploadPhoto_unique collection body upload huniq

/-- Uniqueness of service numbers on requests whose fields are absent or single strings: it is
preserved by every single request to any handler and therefore holds in every store reachable
from the empty store by such requests run one after another. -/
theorem unique_svcNo_invariant (H : Hasher) :
    (∀ collection req, UniqueSvcNo collection → UniqueSvcNo (handle H collection req).1) ∧
    (∀ collection, Reachable H collection → UniqueSvcNo collection) := by
  refine ⟨fun collection req h => handle_unique H collection req h, ?_⟩
  intro collection hreach
  induction hreach with
  | empty => simp [UniqueSvcNo]
  | step c req _ ih => exact handle_unique H c req ih

theorem unique_svcNo_invariant_witness :
    UniqueSvcNo (handle demoHasher registeredStore
      (Request.signup 3 (bodyOf [("svcNo", "67890"), ("password", "pw")]))).1 ∧
    UniqueSvcNo (handle demoHasher []
      (Request.signup 1 (bodyOf [("svcNo", "12345"), ("password", "abc123")]))).1 :=
  ⟨(unique_svcNo_invariant demoHasher).1 registeredStore
      (Request.signup 3 (bodyOf [("svcNo", "67890"), ("password", "pw")]))
      (by simp [UniqueSvcNo, registeredStore]),
   (unique_svcNo_invariant demoHasher).2 _
      (Reachable.step [] (Request.signup 1 (bodyOf [("svcNo", "12345"), ("password", "abc123")]))
        Reachable.empty)⟩

/-! ## Signup with a repeated service number field -/

theorem wide_get_liftDoc (d : Doc) (k : String) :
    Wide.Doc.get (Wide.liftDoc d) k = (d.get k).map Wide.liftVal := by
  induction d with
  | nil => rfl
  | cons hd tl ih =>
    obtain ⟨k1, v1⟩ := hd
    by_cases h : k1 = k
    · simp [Wide.liftDoc, Wide.Doc.get, Doc.get, h]
    · have ih2 : Wide.Doc.get (List.map (fun kv => (kv.1, Wide.liftVal kv.2)) tl) k =
          (Doc.get tl k).map Wide.liftVal := ih
      simp [Wide.liftDoc, Wide.Doc.get, Doc.get, h, ih2]

theorem wide_liftVal_inj (a b : Val) : Wide.liftVal a = Wide.liftVal b ↔ a = b := by
  cases a <;> cases b <;> simp [Wide.liftVal]

theorem wide_matchesFilter_lift (k : String) (v : Val) (d : Doc) :
    Wide.matchesFilter (k, Wide.liftVal v) (Wide.liftDoc d) = matchesFilter (k, v) d := by
  unfold Wide.matchesFilter matchesFilter
  simp only [wide_get_liftDoc]
  cases hg : d.get k with
  | none =>
    have h0 : Wide.Val.null = Wide.liftVal Val.null := rfl
    simp only [Option.map, Option.getD]
    rw [h0]
    exact decide_eq_decide.mpr (wide_liftVal_inj Val.null v)
  | some w =>
    cases w with
    | null =>
      simp only [Option.map, Option.getD, Wide.liftVal]
      exact decide_eq_decide.mpr (wide_liftVal_inj Val.null v)
    | str x =>
      simp only [Option.map, Option.getD, Wide.liftVal]
      exact decide_eq_decide.mpr (wide_liftVal_inj (Val.str x) v)
    | bool x =>
      simp only [Option.map, Option.getD, Wide.liftVal]
      exact decide_eq_decide.mpr (wide_liftVal_inj (Val.bool x) v)

theorem wide_findOne_lift (collection : Store) (k : String) (v : Val) :
    Wide.findOne (collection.map Wide.liftDoc) (k, Wide.liftVal v) =
      (findOne collection (k, v)).map Wide.liftDoc := by
  induction collection with
  | nil => rfl
  | cons d r ih =>
    unfold Wide.findOne findOne at *
    have hm := wide_matchesFilter_lift k v d
    by_cases h : matchesFilter (k, v) d = true
    · simp [List.find?, h, hm]
    · simp only [List.map_cons, List.find?, hm, h]
      exact ih

theorem wide_toBson_liftBody (body : Body) (k : String) :
    Wide.toBson (Wide.liftBody body k) = Wide.liftVal (toBson (body k)) := by
  unfold Wide.liftBody
  cases body k <;> rfl

theorem wide_liftHash_liftBody (H : Hasher) (body : Body) (k : String) (salt : Nat) :
    Wide.liftHash H (Wide.liftBody body k) salt = H.hash (body k) salt := by
  unfold Wide.liftBody
  cases body k <;> rfl

/-- On bodies whose fields are single strings and stores without arrays, the signup handler of
this section leaves the store that the signup handler on single strings leaves. -/
theorem wide_signup_agrees (H : Hasher) (salt : Nat) (collection : Store) (body : Body) :
    (Wide.signup (Wide.liftHash H) salt (collection.map Wide.liftDoc) (Wide.liftBody body)).1 =
      (signup H salt collection body).1.map Wide.liftDoc := by
  unfold Wide.signup signup
  rw [wide_toBson_liftBody, wide_findOne_lift, wide_liftHash_liftBody]
  cases findOne collection ("svcNo", toBson (body "svcNo")) with
  | some d => rfl
  | none =>
    simp only [Option.map]
    cases H.hash (body "password") salt with
    | none => rfl
    | some hp =>
      simp only [Wide.insertMany, insertMany, List.map_append, List.map_cons, List.map_nil,
        Wide.liftDoc, Wide.liftVal]

/-- C8 (the code at the failing input): in a store whose single record is registered under
service number `a`, a signup whose `svcNo` field is repeated (`svcNo=a&svcNo=b`) is not
rejected: the lookup for the array finds nothing, and a record with `svcNo = [a, b]` is
inserted.  Afterwards a lookup for `a` matches two records: uniqueness of service numbers is
lost. -/
theorem signup_repeated_svcNo_breaks_uniqueness :
    Wide.UniqueSvcNo Wide.oneRecord ∧
    Wide.signup Wide.demoHash 1 Wide.oneRecord Wide.repeatedSvcNo =
      ([[("svcNo", Wide.Val.str "a"), ("password", Wide.Val.str "#pw")],
        [("svcNo", Wide.Val.arr ["a", "b"]), ("password", Wide.Val.str "#pw2")]],
       Wide.Response.render "newProfile" (some (Wide.ReqVal.arr ["a", "b"]))) ∧
    Wide.countSvcNo (Wide.signup Wide.demoHash 1 Wide.oneRecord Wide.repeatedSvcNo).1
      (Wide.Val.str "a") = 2 ∧
    ¬ Wide.UniqueSvcNo (Wide.signup Wide.demoHash 1 Wide.oneRecord Wide.repeatedSvcNo).1 := by
  refine ⟨by decide, by decide, by decide, by decide⟩

/-! ## Photo association -/

theorem Doc.set_eq_self_iff (d : Doc) (k : String) (v : Val) :
    d.set k v = d ↔ d.get k = some v := by
  induction d with
  | nil => simp [Doc.set, Doc.get]
  | cons hd tl ih =>
    obtain ⟨k1, v1⟩ := hd
    by_cases h : k1 = k
    · subst h
      simp only [Doc.set, Doc.get, if_true, List.cons.injEq, Prod.mk.injEq, true_and, and_true,
        Option.some.injEq]
      exact eq_comm
    · simp only [Doc.set, Doc.get, h, if_false, List.cons.injEq, true_and]
      exact ih

theorem updateOne_split (collection : Store) (filter : String × Val)
    (fields : List (String × Val)) (d : Doc) (h : findOne collection filter = some d) :
    ∃ pre post, collection = pre ++ d :: post ∧
      (updateOne collection filter fields).1 = pre ++ applySet d fields :: post := by
  induction collection with
  | nil => simp [findOne] at h
  | cons e r ih =>
    unfold findOne at h ih
    by_cases hm : matchesFilter filter e = true
    · simp only [List.find?, hm, Option.some.injEq] at h
      subst h
      exact ⟨[], r, rfl, by simp [updateOne, hm]⟩
    · simp only [List.find?, hm] at h
      obtain ⟨pre, post, h1, h2⟩ := ih h
      refine ⟨e :: pre, post, by rw [h1]; rfl, ?_⟩
      simp only [updateOne, hm]
      rw [h2]
      rfl

theorem uploadPhoto_answer_eq (collection : Store) (body : Body) (p : String) :
    (uploadPhoto collection body (UploadOutcome.file p)).2 =
      if (updateOne collection ("svcNo", toBson (body "svcNo"))
          [("photoPath", Val.str p)]).2.modifiedCount = 1 then
        Response.redirect ("/profile?svcNo=" ++ reqToString (body "svcNo"))
      else Response.send 200 "Could not update database with photo path." := by
  unfold uploadPhoto
  simp only
  split <;> rfl

/-- C9 (as stated, refuted): with the empty string as service number an accepted upload sets
`photoPath` on the record filed under it, yet a subsequent profile retrieval for that service
number does not return the path: it answers that no service number was provided. -/
theorem uploadPhoto_empty_svcNo_not_retrieved :
    findOne (uploadPhoto emptySvcNoStore (svcNoOnly "") (UploadOutcome.file "uploads/.jpg")).1
        ("svcNo", Val.str "") =
      some [("svcNo", Val.str ""), ("password", Val.str "#abc123"),
        ("photoPath", Val.str "uploads/.jpg")] ∧
    (profile (uploadPhoto emptySvcNoStore (svcNoOnly "") (UploadOutcome.file "uploads/.jpg")).1
        (svcNoOnly "")).2 =
      Response.send 200 "Cannot display profile: No service number provided." := by
  refine ⟨by decide, by decide⟩

/-- C9 (amended): the photo handler touches nothing but the `photoPath` of the matching
record.  A rejected upload or a missing file leaves the store unchanged, and so does an
accepted upload when no record matches.  When the upload is accepted with path `p` and a
record matches, that record ends with `photoPath = p`, its other fields and all other records
are unchanged, and, provided the service number is not the empty string, a subsequent profile
retrieval for it returns the record with `photoPath = p`. -/
theorem uploadPhoto_frame (collection : Store) (body : Body) :
    (∀ upload, (∀ p, upload ≠ UploadOutcome.file p) →
      (uploadPhoto collection body upload).1 = collection) ∧
    (∀ p, findOne collection ("svcNo", toBson (body "svcNo")) = none →
      (uploadPhoto collection body (UploadOutcome.file p)).1 = collection) ∧
    (∀ p d, findOne collection ("svcNo", toBson (body "svcNo")) = some d →
      (∃ pre post, collection = pre ++ d :: post ∧
        (uploadPhoto collection body (UploadOutcome.file p)).1 =
          pre ++ d.set "photoPath" (Val.str p) :: post) ∧
      (d.set "photoPath" (Val.str p)).get "photoPath" = some (Val.str p) ∧
      (∀ k, k ≠ "photoPath" → (d.set "photoPath" (Val.str p)).get k = d.get k) ∧
      findOne (uploadPhoto collection body (UploadOutcome.file p)).1
          ("svcNo", toBson (body "svcNo")) = some (d.set "photoPath" (Val.str p)) ∧
      (∀ s query, body "svcNo" = some s → s ≠ "" → query "svcNo" = some s →
        (profile (uploadPhoto collection body (UploadOutcome.file p)).1 query).2 =
          Response.render "profile" (Locals.user (d.set "photoPath" (Val.str p))))) := by
  refine ⟨fun upload h => uploadPhoto_store_rejected collection body upload h, ?_, ?_⟩
  · intro p hnone
    rw [uploadPhoto_store_file, updateOne_of_findOne_none _ _ _ hnone]
  · intro p d hd
    have hfind := findOne_updateOne collection ("svcNo", toBson (body "svcNo"))
      [("photoPath", Val.str p)] (by simp)
    rw [hd, ← uploadPhoto_store_file] at hfind
    have hset : applySet d [("photoPath", Val.str p)] = d.set "photoPath" (Val.str p) := rfl
    simp only [Option.map, hset] at hfind
    refine ⟨?_, Doc.get_set_self d _ _, ?_, hfind, ?_⟩
    · obtain ⟨pre, post, h1, h2⟩ := updateOne_split collection _ [("photoPath", Val.str p)] d hd
      exact ⟨pre, post, h1, by rw [uploadPhoto_store_file, h2, hset]⟩
    · intro k hk
      exact Doc.get_set_other d "photoPath" k _ (Ne.symm hk)
    · intro s query hs hne hq
      have hb : toBson (body "svcNo") = Val.str s := by rw [hs]; rfl
      rw [hb] at hfind
      rw [profile_of_found _ query s _ hq hne hfind]

theorem uploadPhoto_frame_witness :
    (profile (uploadPhoto registeredStore (svcNoOnly "12345")
        (UploadOutcome.file "uploads/12345.jpg")).1 (svcNoOnly "12345")).2 =
      Response.render "profile" (Locals.user
        (Doc.set [("svcNo", Val.str "12345"), ("password", Val.str "#abc123")] "photoPath"
          (Val.str "uploads/12345.jpg"))) :=
  ((uploadPhoto_frame registeredStore (svcNoOnly "12345")).2.2 "uploads/12345.jpg"
    [("svcNo", Val.str "12345"), ("password", Val.str "#abc123")] (by decide)).2.2.2.2
    "12345" (svcNoOnly "12345") (by decide) (by decide) (by decide)

/-- C10 (as stated, refuted): a record for 12345 exists and File Intake accepts the upload, but
the stored path (service number plus extension) equals the record's current `photoPath`; the
photo handler does not proceed to the profile display, it answers that the database could
not be updated. -/
theorem uploadPhoto_reupload_same_path :
    "uploads/" ++ filename (some "12345") ".jpg" = "uploads/12345.jpg" ∧
    findOne photoStore ("svcNo", Val.str "12345") =
      some [("svcNo", Val.str "12345"), ("password", Val.str "#abc123"),
        ("photoPath", Val.str "uploads/12345.jpg")] ∧
    (uploadPhoto photoStore (svcNoOnly "12345") (UploadOutcome.file "uploads/12345.jpg")).2 =
      Response.send 200 "Could not update database with photo path." ∧
    (uploadPhoto photoStore (svcNoOnly "12345") (UploadOutcome.file "uploads/12345.jpg")).2 ≠
      Response.redirect "/profile?svcNo=12345" := by
  refine ⟨by decide, by decide, by decide, by decide⟩

/-- C10 (amended): for an upload that File Intake accepts with path `p`, the photo handler
proceeds to the profile display exactly when the update changes a record: a record matches the
service number `s` and its current `photoPath` is not `p`.  When no record matches, and when the
matching record already has `photoPath = p`, it answers "Could not update database with photo
path.". -/
theorem uploadPhoto_response (collection : Store) (body : Body) (s p : String)
    (hs : body "svcNo" = some s) :
    (findOne collection ("svcNo", Val.str s) = none →
      (uploadPhoto collection body (UploadOutcome.file p)).2 =
        Response.send 200 "Could not update database with photo path.") ∧
    (∀ d, findOne collection ("svcNo", Val.str s) = some d →
      d.get "photoPath" = some (Val.str p) →
      (uploadPhoto collection body (UploadOutcome.file p)).2 =
        Response.send 200 "Could not update database with photo path.") ∧
    (∀ d, findOne collection ("svcNo", Val.str s) = some d →
      d.get "photoPath" ≠ some (Val.str p) →
      (uploadPhoto collection body (UploadOutcome.file p)).2 =
        Response.redirect ("/profile?svcNo=" ++ s)) := by
  have hb : toBson (body "svcNo") = Val.str s := by rw [hs]; rfl
  have hr : reqToString (body "svcNo") = s := by rw [hs]; rfl
  have hset : ∀ d : Doc, applySet d [("photoPath", Val.str p)] = d.set "photoPath" (Val.str p) :=
    fun _ => rfl
  refine ⟨?_, ?_, ?_⟩
  · intro hnone
    rw [uploadPhoto_answer_eq, hb, updateOne_of_findOne_none _ _ _ hnone]
    simp
  · intro d hd hsame
    rw [uploadPhoto_answer_eq, hb, updateOne_found _ _ _ d hd, hset]
    simp [(Doc.set_eq_self_iff d "photoPath" (Val.str p)).mpr hsame]
  · intro d hd hdiff
    have hne : d.set "photoPath" (Val.str p) ≠ d :=
      fun h => hdiff ((Doc.set_eq_self_iff d "photoPath" (Val.str p)).mp h)
    rw [uploadPhoto_answer_eq, hb, updateOne_found _ _ _ d hd, hset, hr]
    simp [hne]

theorem uploadPhoto_response_witness :
    (uploadPhoto registeredStore (svcNoOnly "12345") (UploadOutcome.file "uploads/12345.jpg")).2 =
      Response.redirect ("/profile?svcNo=" ++ "12345") :=
  (uploadPhoto_response registeredStore (svcNoOnly "12345") "12345" "uploads/12345.jpg"
    (by decide)).2.2 [("svcNo", Val.str "12345"), ("password", Val.str "#abc123")]
    (by decide) (by decide)

end NNPPA
